import Mathlib

/-!
Verification of the recommendation-serving core of the movie_recommendation
repository, as a shallow embedding of `src/backend/recommend.py` and
`src/backend/main.py`.

Modelling conventions:
* float64 scores are modelled as rationals (`ℚ`);
* a prediction / rating table (`collab_predictions_df`, `content_predictions_df`,
  `current_ratings_df` after `set_index('user_id')`) is a list of records
  `(user_id, movie_id, rating)` in file order;
* pandas operations used by the source are embedded by their documented
  semantics, noted at each definition;
* HTTP handlers are embedded as functions returning a status code, with the
  `try/except Exception` structure made explicit via `Except`.
-/

attribute [local semireducible] Rat.mul Rat.add Rat.sub Rat.inv

namespace MovieRec

/-- A row of a prediction or rating table after `set_index('user_id')`:
the index value (`user_id`), the `movie_id` column and the `rating` column.
All ids are coerced to strings on load (`astype(str)`, recommend.py l.91-125). -/
structure Row where
  user : String
  movie : String
  rating : ℚ
deriving DecidableEq, Repr

/-- A prediction/rating table: rows in file order, indexed (non-uniquely) by `user`. -/
abbrev Table := List Row

/-- Number of records a user has in a table (rows whose index equals `u`). -/
def userCount (t : Table) (u : String) : Nat :=
  (t.filter (fun r => r.user = u)).length

/-- Result shape of `df.loc[u]` on a non-unique index: pandas returns a
single-row `Series` when exactly one row matches, and a `DataFrame` otherwise. -/
inductive LocResult where
  | series (r : Row)
  | frame (rs : List Row)
deriving DecidableEq, Repr

/-- `df.loc[u]` (recommend.py l.194/234/274): select the rows whose index equals
`u`, preserving order; a single matching row is squeezed to a `Series`. -/
def dfLoc (t : Table) (u : String) : LocResult :=
  match t.filter (fun r => r.user = u) with
  | [r] => .series r
  | rs => .frame rs

/-- `.empty` on the result of `.loc`: a single-row `Series` holds the column
values (`movie_id`, `rating`), so it is never empty; a `DataFrame` is empty
iff it has no rows. -/
def locEmpty : LocResult → Bool
  | .series _ => false
  | .frame rs => rs.isEmpty

/-- Descending comparison on rows by the `rating` column (ties allowed),
used to model the stable descending sort performed by `nlargest`. -/
def rowDesc (a b : Row) : Prop := b.rating ≤ a.rating

instance : DecidableRel rowDesc := fun a b => inferInstanceAs (Decidable (b.rating ≤ a.rating))

instance : IsTotal Row rowDesc := ⟨fun a b => le_total b.rating a.rating⟩

instance : IsTrans Row rowDesc := ⟨fun _ _ _ h1 h2 => le_trans h2 h1⟩

/-- `DataFrame.nlargest(n, 'rating')` with the default `keep='first'`
(pandas `SelectNFrame`): rows sorted descending by the column with a stable
sort (`kind="mergesort"`), truncated to `n`; `n <= 0` yields an empty frame. -/
def nlargestRows (rs : List Row) (n : ℤ) : List Row :=
  if n ≤ 0 then [] else (List.insertionSort rowDesc rs).take n.toNat

/-- `user_predictions.nlargest(n, 'rating')` as written in the source
(recommend.py l.203/243/283).  On a `DataFrame` this is `nlargestRows`.  On a
single-row `Series` the second positional argument `'rating'` is passed as the
`keep` parameter, and pandas `SelectN.__init__` immediately raises
`ValueError('keep must be either "first", "last" or "all"')`. -/
def nlargestLoc : LocResult → ℤ → Except String (List Row)
  | .series _, _ => .error ("keep must be either first, last or all")
  | .frame rs, n => .ok (nlargestRows rs n)

/-- Common body of `get_user_content_recommendations` (recommend.py l.168-206),
`get_user_collab_recommendations` (l.208-246) and `get_user_top_rated_movies`
(l.248-286): if the table is unavailable return an empty frame; if the user is
absent from the index return an empty frame; otherwise `.loc` lookup, `.empty`
check, then `nlargest(n, 'rating')[['movie_id']]`.  The result is the list of
movie ids, or the uncaught pandas error. -/
def lookupAndRank (ot : Option Table) (u : String) (n : ℤ) : Except String (List String) :=
  match ot with
  | none => .ok []
  | some t =>
    if u ∈ t.map (fun r => r.user) then
      let up := dfLoc t u
      if locEmpty up then .ok []
      else (nlargestLoc up n).map (fun rs => rs.map (fun r => r.movie))
    else .ok []

/-- A genre-feature row: the (string-coerced) movie id indexing `genre_df`
and its feature vector.  The feature dimension is fixed to two throughout the
embedding, which is the dimension exercised by the claims. -/
abbrev GenreRow := String × ℚ × ℚ

/-- The in-process `model_data` dictionary built by `load_model_data`
(recommend.py l.72-166): each table is present or absent depending on whether
its file loaded (degraded mode). -/
structure ModelData where
  content : Option Table
  collab : Option Table
  ratings : Option Table
  genre : Option (List GenreRow)
  top100 : Option (List String)
deriving DecidableEq, Repr

/-- `get_user_content_recommendations(user_id, model_data, n)` (recommend.py l.168-206). -/
def get_user_content_recommendations (s : ModelData) (u : String) (n : ℤ) :
    Except String (List String) :=
  lookupAndRank s.content u n

/-- `get_user_collab_recommendations(user_id, model_data, n)` (recommend.py l.208-246). -/
def get_user_collab_recommendations (s : ModelData) (u : String) (n : ℤ) :
    Except String (List String) :=
  lookupAndRank s.collab u n

/-- `get_user_top_rated_movies(user_id, model_data, n)` (recommend.py l.248-286). -/
def get_user_top_rated_movies (s : ModelData) (u : String) (n : ℤ) :
    Except String (List String) :=
  lookupAndRank s.ratings u n

/-- Boolean lexicographic comparison on code points, the comparison Python uses
for `str` (and pandas for sorting string group keys).  Written over `List Char`
so that it evaluates in the kernel. -/
def lexLe : List Char → List Char → Bool
  | [], _ => true
  | _ :: _, [] => false
  | a :: as, b :: bs => if a < b then true else if b < a then false else lexLe as bs

/-- Ascending string order used when pandas sorts group keys / index values. -/
def strAsc (a b : String) : Prop := lexLe a.data b.data = true

instance : DecidableRel strAsc := fun a b => inferInstanceAs (Decidable (lexLe a.data b.data = true))

/-- A scored list: `(movie_id, score)` pairs (a two-column frame). -/
abbrev Scored := List (String × ℚ)

/-- First value associated to a key in a scored list (used to state what a
frame holds for a given movie id). -/
def lookupScore (l : Scored) (m : String) : Option ℚ :=
  (l.find? (fun p => p.1 = m)).map (fun p => p.2)

/-- Descending comparison on `(movie_id, score)` pairs by score. -/
def pairDesc (a b : String × ℚ) : Prop := b.2 ≤ a.2

instance : DecidableRel pairDesc := fun a b => inferInstanceAs (Decidable (b.2 ≤ a.2))

instance : IsTotal (String × ℚ) pairDesc := ⟨fun a b => le_total b.2 a.2⟩

instance : IsTrans (String × ℚ) pairDesc := ⟨fun _ _ _ h1 h2 => le_trans h2 h1⟩

/-- `frame.nlargest(n, 'score')` on a two-column frame: stable descending sort,
truncate to `n`; `n <= 0` yields an empty frame (pandas `SelectN`). -/
def nlargestPairs (rows : Scored) (n : ℤ) : Scored :=
  if n ≤ 0 then [] else (List.insertionSort pairDesc rows).take n.toNat

/-- `combined_recs.groupby('movie_id')['score'].sum().reset_index()`
(recommend.py l.356): group keys are the distinct movie ids sorted ascending
(groupby default `sort=True`), each mapped to the sum of its scores. -/
def groupbySum (rows : Scored) : Scored :=
  (List.insertionSort strAsc (rows.map (fun p => p.1)).dedup).map
    (fun k => (k, ((rows.filter (fun p => p.1 = k)).map (fun p => p.2)).sum))

/-- The score-combination step of `get_hybrid_recommendations`
(recommend.py l.328-356): content scores are multiplied by `content_weight`,
collaborative scores by `1 - content_weight`, the rows are concatenated and
grouped by movie id with summed scores. -/
def blendCombine (cL kL : Scored) (w : ℚ) : Scored :=
  groupbySum
    (cL.map (fun p => (p.1, p.2 * w)) ++ kL.map (fun p => (p.1, p.2 * (1 - w))))

/-- The `(movie_id, rating)` rows a user has in an optional table, in order:
`model_data[...].loc[str(user_id)][['movie_id', 'rating']]` restricted to the
two columns used by the merge (recommend.py l.334/346). -/
def userRows (ot : Option Table) (u : String) : Scored :=
  match ot with
  | none => []
  | some t => (t.filter (fun r => r.user = u)).map (fun r => (r.movie, r.rating))

/-- `recs.merge(rows, on='movie_id', how='left')` (recommend.py l.335-339):
for each recommended id in order, the matching `(movie_id, rating)` rows of the
user's predictions, in their order.  (Every recommended id comes from those
very rows, so the left join never manufactures a null rating.) -/
def mergeRatings (ids : List String) (rows : Scored) : Scored :=
  ids.flatMap (fun i => (rows.filter (fun p => p.1 = i)).map (fun p => (i, p.2)))

/-- Body of the `try:` block of `get_hybrid_recommendations`
(recommend.py l.306-362), for pre-loaded `model_data`: rank both sources,
return an empty frame if both are empty, otherwise re-attach ratings by a left
merge, weight, group-sum, and take the top `n` by blended score. -/
def hybridInner (s : ModelData) (u : String) (n : ℤ) (w : ℚ) :
    Except String (List String) := do
  let cRecs ← get_user_content_recommendations s u n
  let kRecs ← get_user_collab_recommendations s u n
  if cRecs.isEmpty && kRecs.isEmpty then
    pure []
  else
    let cScored := if cRecs.isEmpty then [] else mergeRatings cRecs (userRows s.content u)
    let kScored := if kRecs.isEmpty then [] else mergeRatings kRecs (userRows s.collab u)
    pure ((nlargestPairs (blendCombine cScored kScored w) n).map (fun p => p.1))

/-- `get_hybrid_recommendations(user_id, model_data, n, content_weight)`
(recommend.py l.288-366): the whole body is wrapped in
`try ... except Exception: return pd.DataFrame(columns=['movie_id'])`,
so any error from either source collapses to an empty result. -/
def get_hybrid_recommendations (s : ModelData) (u : String) (n : ℤ) (w : ℚ) :
    List String :=
  match hybridInner s u n w with
  | .ok l => l
  | .error _ => []

/-- Ridge regression with two features, `sklearn.linear_model.Ridge(alpha)` with
the default `fit_intercept=True`: features and targets are centred, the
coefficients solve `(Xc^T Xc + alpha I) w = Xc^T yc` (written in closed form by
Cramer's rule for the 2x2 system), and the unpenalised intercept is
`mean y - w . mean x`. -/
def ridgeFit (X : List (ℚ × ℚ)) (y : List ℚ) (a : ℚ) : (ℚ × ℚ) × ℚ :=
  let m : ℚ := X.length
  let xbar1 := (X.map (fun p => p.1)).sum / m
  let xbar2 := (X.map (fun p => p.2)).sum / m
  let ybar := y.sum / m
  let xc := X.map (fun p => (p.1 - xbar1, p.2 - xbar2))
  let yc := y.map (fun v => v - ybar)
  let a11 := (xc.map (fun p => p.1 * p.1)).sum + a
  let a12 := (xc.map (fun p => p.1 * p.2)).sum
  let a22 := (xc.map (fun p => p.2 * p.2)).sum + a
  let b1 := ((xc.zip yc).map (fun q => q.1.1 * q.2)).sum
  let b2 := ((xc.zip yc).map (fun q => q.1.2 * q.2)).sum
  let det := a11 * a22 - a12 * a12
  let w1 := (b1 * a22 - b2 * a12) / det
  let w2 := (a11 * b2 - a12 * b1) / det
  ((w1, w2), ybar - (w1 * xbar1 + w2 * xbar2))

/-- Prediction of the fitted linear model on a feature vector. -/
def ridgePredict (f : (ℚ × ℚ) × ℚ) (x : ℚ × ℚ) : ℚ :=
  f.1.1 * x.1 + f.1.2 * x.2 + f.2

/-- The model `get_cold_start_recommendations` fits (recommend.py l.406-411):
`X_train = genre_df.loc[valid_movies].values`,
`y_train = np.full(len(valid_movies), 5.0)`, `Ridge(alpha=1.0).fit(...)`. -/
def coldStartFit (g : List GenreRow) (valid : List String) : (ℚ × ℚ) × ℚ :=
  let X := valid.filterMap (fun m => (g.find? (fun p => p.1 = m)).map (fun p => p.2))
  ridgeFit X (X.map (fun _ => (5 : ℚ))) 1

/-- Body of `get_cold_start_recommendations` once the genre table is at hand
(recommend.py l.396-428): keep the liked ids present in the genre index
(`valid_movies`); if none remain, return an empty frame; otherwise fit the
per-user ridge model, score the unseen movies
(`genre_df.index.difference(valid_movies)`, which pandas returns sorted and
de-duplicated), and take the top `n` by predicted rating. -/
def coldStartCore (g : List GenreRow) (movies : List String) (n : ℤ) : List String :=
  let valid := movies.filter (fun m => m ∈ g.map (fun p => p.1))
  if valid.isEmpty then []
  else
    let fit := coldStartFit g valid
    let unseen := (List.insertionSort strAsc (g.map (fun p => p.1)).dedup).filter
      (fun m => m ∉ valid)
    let preds := unseen.map
      (fun m => (m, ridgePredict fit (((g.find? (fun p => p.1 = m)).map (fun p => p.2)).getD (0, 0))))
    (nlargestPairs preds n).map (fun p => p.1)

/-- `get_cold_start_recommendations(movies_list, model_data, n)`
(recommend.py l.368-432), in state-passing form over `model_data`: if
`genre_df` is missing from the store the function loads it from disk
(modelled by the `diskGenre` argument) and **inserts it into `model_data`**
(`model_data['genre_df'] = genre_df`, l.389); a failed disk load is caught and
yields an empty frame.  All other paths leave the store untouched. -/
def get_cold_start_recommendations (s : ModelData) (diskGenre : Option (List GenreRow))
    (movies : List String) (n : ℤ) : ModelData × List String :=
  match s.genre with
  | some g => (s, coldStartCore g movies n)
  | none =>
    match diskGenre with
    | some g => ({ s with genre := some g }, coldStartCore g movies n)
    | none => (s, [])

/-- `get_cold_start_movies(model_data, n)` (recommend.py l.434-468) in
state-passing form: reads only `top_100_df` and never assigns into
`model_data`.  The seeded sampling itself (`DataFrame.sample(...,
random_state=42)`, a numpy RNG) is beyond the embedding and is abstracted as
the `pick` argument. -/
def get_cold_start_movies (pick : List String → ℤ → List String) (s : ModelData)
    (n : ℤ) : ModelData × List String :=
  match s.top100 with
  | none => (s, [])
  | some l => (s, if l.isEmpty then [] else pick l n)

/-- State-passing form of `get_hybrid_recommendations`: the function body
contains no assignment into `model_data`, so the store passes through. -/
def hybridOp (s : ModelData) (u : String) (n : ℤ) (w : ℚ) : ModelData × List String :=
  (s, get_hybrid_recommendations s u n w)

/-- State-passing form of `get_user_top_rated_movies`: no assignment into
`model_data`. -/
def topRatedOp (s : ModelData) (u : String) (n : ℤ) :
    ModelData × Except String (List String) :=
  (s, get_user_top_rated_movies s u n)

/-- Body of the `try:` block of `GET /recommendations/{user_id}`
(main.py l.77-114), with the store already loaded: hybrid recommendations
(which never raise), then `get_user_top_rated_movies` (whose pandas error
escapes into the handler), then `raise HTTPException(404)` when both lists are
empty.  Any raised exception is the `.error` case. -/
def recInner (s : ModelData) (u : String) (n : ℤ) (w : ℚ) :
    Except Unit (List String × List String) :=
  let recs := get_hybrid_recommendations s u n w
  match get_user_top_rated_movies s u n with
  | .error _ => .error ()
  | .ok top =>
    if recs.isEmpty && top.isEmpty then .error () else .ok (recs, top)

/-- HTTP status of `GET /recommendations/{user_id}` (main.py l.60-121): the
handler's `except Exception` catches every exception raised inside the `try:`
block — including its own `HTTPException(404)` — and re-raises
`HTTPException(500)`. -/
def recEndpointStatus (s : ModelData) (u : String) (n : ℤ) (w : ℚ) : Nat :=
  match recInner s u n w with
  | .ok _ => 200
  | .error _ => 500

/-- Body of the `try:` block of `POST /cold-start/recommendations`
(main.py l.179-209), with the store already loaded: empty `movies` raises
`HTTPException(400)`; an empty recommendation result raises
`HTTPException(404)`; otherwise the recommendations are returned.  The error
value records the status code of the `HTTPException` raised inside `try:`. -/
def coldStartInner (s : ModelData) (diskGenre : Option (List GenreRow))
    (movies : List String) (n : ℤ) : Except Nat (List String) :=
  if movies.isEmpty then .error 400
  else
    let recs := (get_cold_start_recommendations s diskGenre movies n).2
    if recs.isEmpty then .error 404 else .ok recs

/-- HTTP status of `POST /cold-start/recommendations` (main.py l.167-216):
`except Exception` catches every exception raised inside the `try:` block —
including the handler's own `HTTPException(400)` and `HTTPException(404)` —
and re-raises `HTTPException(500)`. -/
def coldStartEndpointStatus (s : ModelData) (diskGenre : Option (List GenreRow))
    (movies : List String) (n : ℤ) : Nat :=
  match coldStartInner s diskGenre movies n with
  | .ok _ => 200
  | .error _ => 500

instance {ε α : Type} [DecidableEq ε] [DecidableEq α] : DecidableEq (Except ε α) :=
  fun a b =>
    match a, b with
    | .ok x, .ok y =>
      if h : x = y then .isTrue (by rw [h]) else .isFalse (fun hc => h (Except.ok.inj hc))
    | .error x, .error y =>
      if h : x = y then .isTrue (by rw [h]) else .isFalse (fun hc => h (Except.error.inj hc))
    | .ok _, .error _ => .isFalse (fun hc => Except.noConfusion hc)
    | .error _, .ok _ => .isFalse (fun hc => Except.noConfusion hc)

/-! ### Concrete instances used to exercise the definitions -/

/-- A store in which user `u` has two content predictions, two collaborative
predictions and two current ratings. -/
def twoByTwoStore : ModelData :=
  ModelData.mk
    (some ([⟨"u", "m1", 4⟩, ⟨"u", "m0", 1⟩]))
    (some ([⟨"u", "m2", 3⟩, ⟨"u", "m3", 2⟩]))
    (some ([⟨"u", "r1", 5⟩, ⟨"u", "r2", 3⟩]))
    none none

/-- A store in which user `u` has exactly one collaborative prediction record
but two current-ratings records. -/
def singleCollabStore : ModelData :=
  ModelData.mk none (some ([⟨"u", "m1", 4⟩])) (some ([⟨"u", "r1", 5⟩, ⟨"u", "r2", 3⟩]))
    none none

/-- A store in which user `u` has exactly one collaborative prediction record
and exactly one current-ratings record. -/
def singleEverywhereStore : ModelData :=
  ModelData.mk none (some ([⟨"u", "m1", 4⟩])) (some ([⟨"u", "r1", 5⟩])) none none

/-- The genre-feature table of the spec's end-to-end cold-start example:
`{1: [1,0], 2: [1,0], 3: [0,1]}`. -/
def demoGenres : List GenreRow := [("1", (1, 0)), ("2", (1, 0)), ("3", (0, 1))]

/-- A store holding only the demo genre table. -/
def genreOnlyStore : ModelData := ModelData.mk none none none (some demoGenres) none

/-- A store in which every table failed to load. -/
def emptyStore : ModelData := ModelData.mk none none none none none

/-! ### Helper lemmas about `groupbySum` and `blendCombine` -/

theorem find?_eq_self (m : String) (keys : List String) :
    keys.find? (fun k => k = m) = if m ∈ keys then some m else none := by
  induction keys with
  | nil => simp
  | cons k ks ih =>
    by_cases h : k = m
    · subst h
      rw [List.find?_cons_of_pos _ (by simp)]
      simp
    · rw [List.find?_cons_of_neg _ (by simpa using h), ih]
      have h' : ¬(m = k) := fun hc => h hc.symm
      simp [List.mem_cons, h']

theorem find?_keyed (g : String → ℚ) (m : String) (keys : List String) :
    (keys.map (fun k => (k, g k))).find? (fun p => p.1 = m) =
      if m ∈ keys then some (m, g m) else none := by
  induction keys with
  | nil => simp
  | cons k ks ih =>
    by_cases h : k = m
    · subst h
      rw [List.map_cons, List.find?_cons_of_pos _ (by simp)]
      simp
    · rw [List.map_cons, List.find?_cons_of_neg _ (by simpa using h), ih]
      have h' : ¬(m = k) := fun hc => h hc.symm
      simp [List.mem_cons, h']

theorem lookupScore_groupbySum (rows : Scored) (m : String) :
    lookupScore (groupbySum rows) m =
      if m ∈ rows.map (fun p => p.1) then
        some (((rows.filter (fun p => p.1 = m)).map (fun p => p.2)).sum)
      else none := by
  unfold groupbySum lookupScore
  rw [find?_keyed]
  have hmem : m ∈ List.insertionSort strAsc (rows.map (fun p => p.1)).dedup ↔
      m ∈ rows.map (fun p => p.1) := by
    rw [(List.perm_insertionSort strAsc _).mem_iff, List.mem_dedup]
  by_cases h : m ∈ rows.map (fun p => p.1)
  · rw [if_pos (hmem.mpr h), if_pos h]
    rfl
  · rw [if_neg (fun hc => h (hmem.mp hc)), if_neg h]
    rfl

theorem lookupScore_eq_none (L : Scored) (m : String) :
    lookupScore L m = none ↔ m ∉ L.map (fun p => p.1) := by
  unfold lookupScore
  rw [Option.map_eq_none', List.find?_eq_none]
  constructor
  · intro h hc
    rcases List.mem_map.mp hc with ⟨p, hp, hpm⟩
    exact absurd (by simpa using hpm) (by simpa using h p hp)
  · intro h p hp
    intro hc
    exact h (List.mem_map.mpr ⟨p, hp, by simpa using hc⟩)

theorem filter_of_lookup_some (L : Scored) (m : String) (c : ℚ)
    (hnd : (L.map (fun p => p.1)).Nodup) (h : lookupScore L m = some c) :
    L.filter (fun p => p.1 = m) = [(m, c)] := by
  induction L with
  | nil => simp [lookupScore] at h
  | cons p tl ih =>
    rw [List.map_cons, List.nodup_cons] at hnd
    by_cases hp : p.1 = m
    · unfold lookupScore at h
      rw [List.find?_cons_of_pos _ (by simpa using hp)] at h
      have hc : p.2 = c := by simpa using h
      have htl : tl.filter (fun p => p.1 = m) = [] := by
        rw [List.filter_eq_nil_iff]
        intro q hq hqm
        have hqm' : q.1 = m := by simpa using hqm
        exact hnd.1 (hp ▸ hqm' ▸ List.mem_map.mpr ⟨q, hq, rfl⟩)
      have hpc : p = (m, c) := Prod.ext hp hc
      simp [List.filter_cons, hp, htl, hpc]
    · unfold lookupScore at h
      rw [List.find?_cons_of_neg _ (by simpa using hp)] at h
      rw [List.filter_cons, if_neg (by simpa using hp)]
      exact ih hnd.2 h

theorem filter_of_lookup_none (L : Scored) (m : String)
    (h : lookupScore L m = none) :
    L.filter (fun p => p.1 = m) = [] := by
  rw [List.filter_eq_nil_iff]
  intro q hq hqm
  exact (lookupScore_eq_none L m).mp h (List.mem_map.mpr ⟨q, hq, by simpa using hqm⟩)

theorem filter_fst_map_weight (L : Scored) (f : ℚ → ℚ) (m : String) :
    (L.map (fun p => (p.1, f p.2))).filter (fun p => p.1 = m) =
      (L.filter (fun p => p.1 = m)).map (fun p => (p.1, f p.2)) := by
  induction L with
  | nil => rfl
  | cons p tl ih =>
    by_cases h : p.1 = m
    · simp [List.filter_cons, h, ih]
    · simp [List.filter_cons, h, ih]

theorem map_fst_weight (L : Scored) (f : ℚ → ℚ) :
    (L.map (fun p => (p.1, f p.2))).map (fun p => p.1) = L.map (fun p => p.1) := by
  simp

theorem lookupScore_some_mem (L : Scored) (m : String) (c : ℚ)
    (h : lookupScore L m = some c) : m ∈ L.map (fun p => p.1) := by
  by_contra hc
  rw [← lookupScore_eq_none L m] at hc
  rw [h] at hc
  exact Option.noConfusion hc

/-- What `blendCombine` holds for each movie id: the sum, over the sources in
which the id occurs, of that source's raw score times that source's weight. -/
theorem blendCombine_lookup (cL kL : Scored) (w : ℚ) (m : String)
    (hc : (cL.map (fun p => p.1)).Nodup) (hk : (kL.map (fun p => p.1)).Nodup) :
    lookupScore (blendCombine cL kL w) m =
      match lookupScore cL m, lookupScore kL m with
      | some c, some k => some (c * w + k * (1 - w))
      | some c, none => some (c * w)
      | none, some k => some (k * (1 - w))
      | none, none => none := by
  unfold blendCombine
  rw [lookupScore_groupbySum]
  rw [List.filter_append, List.map_append]
  rw [filter_fst_map_weight cL (fun x => x * w) m,
    filter_fst_map_weight kL (fun x => x * (1 - w)) m]
  have hmem : (m ∈ (cL.map (fun p => (p.1, p.2 * w))).map (fun p => p.1) ++
      (kL.map (fun p => (p.1, p.2 * (1 - w)))).map (fun p => p.1)) ↔
      (m ∈ cL.map (fun p => p.1) ∨ m ∈ kL.map (fun p => p.1)) := by
    rw [List.mem_append, map_fst_weight cL (fun x => x * w),
      map_fst_weight kL (fun x => x * (1 - w))]
  rcases hcs : lookupScore cL m with _ | c <;> rcases hks : lookupScore kL m with _ | k
  · rw [if_neg]
    intro hcon
    rcases hmem.mp hcon with h1 | h1
    · exact (lookupScore_eq_none cL m).mp hcs h1
    · exact (lookupScore_eq_none kL m).mp hks h1
  · rw [if_pos (hmem.mpr (Or.inr (lookupScore_some_mem kL m k hks)))]
    rw [filter_of_lookup_none cL m hcs, filter_of_lookup_some kL m k hk hks]
    simp
  · rw [if_pos (hmem.mpr (Or.inl (lookupScore_some_mem cL m c hcs)))]
    rw [filter_of_lookup_some cL m c hc hcs, filter_of_lookup_none kL m hks]
    simp
  · rw [if_pos (hmem.mpr (Or.inl (lookupScore_some_mem cL m c hcs)))]
    rw [filter_of_lookup_some cL m c hc hcs, filter_of_lookup_some kL m k hk hks]
    simp

/-! ### Helper lemmas about `dfLoc`, `nlargestRows` and `lookupAndRank` -/

theorem mem_users_of_count_pos (t : Table) (u : String) (h : 0 < userCount t u) :
    u ∈ t.map (fun r => r.user) := by
  unfold userCount at h
  rw [List.length_pos] at h
  rcases List.exists_mem_of_ne_nil _ h with ⟨r, hr⟩
  have hm := List.mem_filter.mp hr
  exact List.mem_map.mpr ⟨r, hm.1, by simpa using hm.2⟩

theorem dfLoc_frame_of_two (t : Table) (u : String) (h : 2 ≤ userCount t u) :
    dfLoc t u = .frame (t.filter (fun r => r.user = u)) := by
  unfold userCount at h
  unfold dfLoc
  rcases hl : t.filter (fun r => r.user = u) with _ | ⟨a, _ | ⟨b, tl⟩⟩
  · rw [hl] at h
    simp at h
  · rw [hl] at h
    simp at h
  · rw [hl]

theorem dfLoc_series_of_one (t : Table) (u : String) (r : Row)
    (h : t.filter (fun r => r.user = u) = [r]) : dfLoc t u = .series r := by
  unfold dfLoc
  rw [h]

theorem nlargestRows_length (rs : List Row) (n : ℤ) :
    (nlargestRows rs n).length = min n.toNat rs.length := by
  unfold nlargestRows
  by_cases h : n ≤ 0
  · rw [if_pos h, Int.toNat_of_nonpos h]
    simp
  · rw [if_neg h, List.length_take, List.length_insertionSort]

theorem nlargestRows_sorted (rs : List Row) (n : ℤ) :
    List.Sorted rowDesc (nlargestRows rs n) := by
  unfold nlargestRows
  by_cases h : n ≤ 0
  · rw [if_pos h]
    exact List.sorted_nil
  · rw [if_neg h]
    exact (List.sorted_insertionSort rowDesc rs).sublist (List.take_sublist _ _)

theorem lookupAndRank_some (t : Table) (u : String) (n : ℤ) :
    lookupAndRank (some t) u n =
      if u ∈ t.map (fun r => r.user) then
        if locEmpty (dfLoc t u) then .ok []
        else (nlargestLoc (dfLoc t u) n).map (fun rs => rs.map (fun r => r.movie))
      else .ok [] := rfl

theorem lookupAndRank_of_two (t : Table) (u : String) (n : ℤ)
    (h : 2 ≤ userCount t u) :
    lookupAndRank (some t) u n =
      .ok ((nlargestRows (t.filter (fun r => r.user = u)) n).map (fun r => r.movie)) := by
  have hne : t.filter (fun r => r.user = u) ≠ [] := by
    intro hc
    unfold userCount at h
    rw [hc] at h
    simp at h
  rw [lookupAndRank_some]
  rw [if_pos (mem_users_of_count_pos t u (lt_of_lt_of_le (by norm_num) h))]
  rw [dfLoc_frame_of_two t u h]
  simp [locEmpty, nlargestLoc, List.isEmpty_iff, hne, Except.map]

theorem lookupAndRank_of_one (t : Table) (u : String) (r : Row)
    (h : t.filter (fun r => r.user = u) = [r]) :
    lookupAndRank (some t) u n = .error ("keep must be either first, last or all") := by
  have hpos : 0 < userCount t u := by
    unfold userCount
    rw [h]
    simp
  rw [lookupAndRank_some]
  rw [if_pos (mem_users_of_count_pos t u hpos)]
  rw [dfLoc_series_of_one t u r h]
  simp [locEmpty, nlargestLoc, Except.map]

/-! ### Claim theorems -/

/-- C1: for every pair of ranked source lists (duplicate-free in their movie
ids, as source rankings are) and every blend weight `w`, the blended score a
movie id receives from `blendCombine` is the sum, over the sources in which
the id is present, of that source's raw score times that source's weight:
`c * w + k * (1 - w)` when present in both, `c * w` when only in the content
list, `k * (1 - w)` when only in the collaborative list, and no entry at all
(in particular no imputed zero term) when present in neither. -/
theorem blend_weighted_sum (cL kL : Scored) (w : ℚ) (m : String)
    (hc : (cL.map (fun p => p.1)).Nodup) (hk : (kL.map (fun p => p.1)).Nodup) :
    lookupScore (blendCombine cL kL w) m =
      match lookupScore cL m, lookupScore kL m with
      | some c, some k => some (c * w + k * (1 - w))
      | some c, none => some (c * w)
      | none, some k => some (k * (1 - w))
      | none, none => none :=
  blendCombine_lookup cL kL w m hc hk

/-- Witness for C1: an item present only in the content source, blended with
weight `1/2`, receives exactly its raw score times `1/2`. -/
theorem blend_weighted_sum_inst :
    lookupScore (blendCombine ([("a", (4 : ℚ))]) ([("b", (3 : ℚ))]) (1 / 2)) "a" =
      some (4 * (1 / 2)) :=
  (blend_weighted_sum ([("a", (4 : ℚ))]) ([("b", (3 : ℚ))]) (1 / 2) "a"
    (by decide) (by decide)).trans (by decide)

/-- C2 (amended): for a user with at least **two** records in the
collaborative prediction table, `get_user_collab_recommendations` succeeds and
returns the ranked movie ids; the ranked selection has length
`min(n, count)` (`n ≤ 0` thus yielding the empty sequence) and is ordered
non-increasing by score.  (The claim's "at least one record" fails: a
single-record user makes the lookup raise, see the counterexample.) -/
theorem rank_two_plus_records (s : ModelData) (t : Table) (u : String) (n : ℤ)
    (hs : s.collab = some t) (h : 2 ≤ userCount t u) :
    get_user_collab_recommendations s u n =
      .ok ((nlargestRows (t.filter (fun r => r.user = u)) n).map (fun r => r.movie)) ∧
    (nlargestRows (t.filter (fun r => r.user = u)) n).length = min n.toNat (userCount t u) ∧
    List.Sorted (fun a b : ℚ => b ≤ a)
      ((nlargestRows (t.filter (fun r => r.user = u)) n).map (fun r => r.rating)) := by
  refine ⟨?_, ?_, ?_⟩
  · unfold get_user_collab_recommendations
    rw [hs]
    exact lookupAndRank_of_two t u n h
  · rw [nlargestRows_length]
    rfl
  · exact List.pairwise_map.mpr (nlargestRows_sorted (t.filter (fun r => r.user = u)) n)

/-- Witness for C2: a user with two collaborative records and `n = 1` gets the
single highest-scored movie id. -/
theorem rank_two_plus_records_inst :
    get_user_collab_recommendations
      (ModelData.mk none (some ([⟨"u", "a", 1⟩, ⟨"u", "b", 5⟩])) none none none) "u" 1 =
      .ok (["b"]) :=
  ((rank_two_plus_records
      (ModelData.mk none (some ([⟨"u", "a", 1⟩, ⟨"u", "b", 5⟩])) none none none)
      ([⟨"u", "a", 1⟩, ⟨"u", "b", 5⟩]) "u" 1 rfl (by decide)).1).trans (by decide)

/-- Counterexample for C2: a user present with exactly one record (count 1,
so the claim demands a length-`min(5,1) = 1` result) instead makes the
operation raise the pandas `keep` ValueError. -/
theorem rank_single_record_raises :
    userCount ([⟨"u", "m1", 4⟩]) "u" = 1 ∧
    get_user_collab_recommendations
      (ModelData.mk none (some ([⟨"u", "m1", 4⟩])) none none none) "u" 5 =
      .error ("keep must be either first, last or all") :=
  ⟨by decide, by decide⟩

/-- C3: for every user id absent from the content and collaborative prediction
tables (including the degraded case where a table failed to load), both
per-source lookups return a successful empty result — absence is a normal
outcome, not an error. -/
theorem absent_user_empty_ok (s : ModelData) (u : String) (n : ℤ)
    (hc : ∀ t, s.content = some t → u ∉ t.map (fun r => r.user))
    (hk : ∀ t, s.collab = some t → u ∉ t.map (fun r => r.user)) :
    get_user_content_recommendations s u n = .ok [] ∧
    get_user_collab_recommendations s u n = .ok [] := by
  constructor
  · unfold get_user_content_recommendations
    rcases hco : s.content with _ | t
    · rfl
    · rw [lookupAndRank_some, if_neg (hc t hco)]
  · unfold get_user_collab_recommendations
    rcases hko : s.collab with _ | t
    · rfl
    · rw [lookupAndRank_some, if_neg (hk t hko)]

/-- Witness for C3: user `"u"` is absent from both loaded tables and both
lookups return `ok []`. -/
theorem absent_user_empty_ok_inst :
    get_user_content_recommendations
      (ModelData.mk (some ([⟨"v", "m1", 4⟩])) (some ([⟨"w", "m2", 3⟩])) none none none)
      "u" 5 = .ok [] ∧
    get_user_collab_recommendations
      (ModelData.mk (some ([⟨"v", "m1", 4⟩])) (some ([⟨"w", "m2", 3⟩])) none none none)
      "u" 5 = .ok [] :=
  absent_user_empty_ok
    (ModelData.mk (some ([⟨"v", "m1", 4⟩])) (some ([⟨"w", "m2", 3⟩])) none none none)
    "u" 5
    (by intro t ht; cases Option.some.inj ht; decide)
    (by intro t ht; cases Option.some.inj ht; decide)

/-- C4: a cold-start request whose liked items all drop out of the genre table
(`items = ["999"]`, table `{1, 2, 3}`) does not produce a 4xx client error as
the claim states.  `get_cold_start_recommendations` returns an empty frame;
the handler raises its own `HTTPException(404)` inside the `try:` block, and
the blanket `except Exception` converts it into a 500 server error. -/
theorem cold_start_no_valid_items_500 :
    (get_cold_start_recommendations genreOnlyStore none (["999"]) 5).2 = [] ∧
    coldStartInner genreOnlyStore none (["999"]) 5 = .error 404 ∧
    coldStartEndpointStatus genreOnlyStore none (["999"]) 5 = 500 :=
  ⟨by decide, by decide, by decide⟩

/-- C5: a `POST /cold-start/recommendations` request with an empty items list
does not receive status 400 as the claim states: the handler raises
`HTTPException(400)` inside its own `try:` block, and the blanket
`except Exception` catches it and re-raises `HTTPException(500)`. -/
theorem cold_start_empty_items_500 :
    coldStartInner genreOnlyStore none ([]) 5 = .error 400 ∧
    coldStartEndpointStatus genreOnlyStore none ([]) 5 = 500 :=
  ⟨by decide, by decide⟩

/-- C6 (amended): with `w = 1.0` every item of the content ranking keeps
exactly its raw content score in the blended scores and every item present
only in the collaborative ranking receives score `0` (dually for `w = 0.0`);
such zero-scored items may still enter the top-`n`, so the blend is not in
general the same ordered result as ranking one source alone (see the
counterexample). -/
theorem blend_weight_one_scores (cL kL : Scored) (m : String)
    (hc : (cL.map (fun p => p.1)).Nodup) (hk : (kL.map (fun p => p.1)).Nodup) :
    (∀ c, lookupScore cL m = some c → lookupScore (blendCombine cL kL 1) m = some c) ∧
    (lookupScore cL m = none → ∀ k, lookupScore kL m = some k →
      lookupScore (blendCombine cL kL 1) m = some 0) ∧
    (∀ k, lookupScore kL m = some k → lookupScore (blendCombine cL kL 0) m = some k) ∧
    (lookupScore kL m = none → ∀ c, lookupScore cL m = some c →
      lookupScore (blendCombine cL kL 0) m = some 0) := by
  have h1 := blendCombine_lookup cL kL 1 m hc hk
  have h0 := blendCombine_lookup cL kL 0 m hc hk
  refine ⟨?_, ?_, ?_, ?_⟩
  · intro c hcs
    rcases hks : lookupScore kL m with _ | k
    · rw [h1, hcs, hks]
      norm_num
    · rw [h1, hcs, hks]
      norm_num
  · intro hcs k hks
    rw [h1, hcs, hks]
    norm_num
  · intro k hks
    rcases hcs : lookupScore cL m with _ | c
    · rw [h0, hcs, hks]
      norm_num
    · rw [h0, hcs, hks]
      norm_num
  · intro hks c hcs
    rw [h0, hcs, hks]
    norm_num

/-- Witness for C6 (amended): at `w = 1`, a content item keeps its raw score 4
and a collaborative-only item gets score 0. -/
theorem blend_weight_one_scores_inst :
    lookupScore (blendCombine ([("a", (4 : ℚ))]) ([("b", (3 : ℚ))]) 1) "a" = some 4 ∧
    lookupScore (blendCombine ([("a", (4 : ℚ))]) ([("b", (3 : ℚ))]) 1) "b" = some 0 :=
  ⟨(blend_weight_one_scores ([("a", (4 : ℚ))]) ([("b", (3 : ℚ))]) "a"
      (by decide) (by decide)).1 4 (by decide),
   ((blend_weight_one_scores ([("a", (4 : ℚ))]) ([("b", (3 : ℚ))]) "b"
      (by decide) (by decide)).2.1 (by decide)) 3 (by decide)⟩

/-- Counterexample for C6: for a user with two content predictions
(`m1`: 4, `m0`: 1) and two collaborative predictions (`m2`: 3, `m3`: 2),
ranking the content source alone gives `[m1, m0]`, but blending with
`w = 1.0` and `n = 3` gives `[m1, m0, m2]` — the zero-scored collaborative
item `m2` enters the output, so the two ordered results differ. -/
theorem blend_weight_one_not_content_alone :
    get_user_content_recommendations twoByTwoStore "u" 3 = .ok (["m1", "m0"]) ∧
    get_hybrid_recommendations twoByTwoStore "u" 3 1 = ["m1", "m0", "m2"] :=
  ⟨by decide, by decide⟩

/-- C7 (amended): a blend weight outside `[0, 1]` is not rejected anywhere:
neither the endpoint nor `get_hybrid_recommendations` validates it, the
request completes with status 200, and the weight is used as-is — a content
score `c` contributes `c * w` and a collaborative score `k` contributes
`k * (1 - w)` (negative for `w > 1`). -/
theorem weight_out_of_range_used (w : ℚ) (_h : w < 0 ∨ 1 < w) :
    recEndpointStatus twoByTwoStore "u" 2 w = 200 ∧
    lookupScore (blendCombine ([("a", (1 : ℚ))]) ([("b", (1 : ℚ))]) w) "a" = some w ∧
    lookupScore (blendCombine ([("a", (1 : ℚ))]) ([("b", (1 : ℚ))]) w) "b" = some (1 - w) := by
  refine ⟨?_, ?_, ?_⟩
  · have htop : get_user_top_rated_movies twoByTwoStore "u" 2 = .ok (["r1", "r2"]) := by
      decide
    simp [recEndpointStatus, recInner, htop]
  · rw [blendCombine_lookup ([("a", (1 : ℚ))]) ([("b", (1 : ℚ))]) w "a" (by decide) (by decide)]
    have h1 : lookupScore ([("a", (1 : ℚ))]) "a" = some 1 := by decide
    have h2 : lookupScore ([("b", (1 : ℚ))]) "a" = none := by decide
    rw [h1, h2]
    norm_num
  · rw [blendCombine_lookup ([("a", (1 : ℚ))]) ([("b", (1 : ℚ))]) w "b" (by decide) (by decide)]
    have h1 : lookupScore ([("a", (1 : ℚ))]) "b" = none := by decide
    have h2 : lookupScore ([("b", (1 : ℚ))]) "b" = some 1 := by decide
    rw [h1, h2]
    norm_num

/-- Witness for C7 (amended): at `w = 2` the request returns 200 and the
collaborative contribution is `1 - 2 = -1`. -/
theorem weight_out_of_range_used_inst :
    recEndpointStatus twoByTwoStore "u" 2 2 = 200 ∧
    lookupScore (blendCombine ([("a", (1 : ℚ))]) ([("b", (1 : ℚ))]) 2) "a" = some 2 ∧
    lookupScore (blendCombine ([("a", (1 : ℚ))]) ([("b", (1 : ℚ))]) 2) "b" = some (1 - 2) :=
  weight_out_of_range_used 2 (Or.inr (by norm_num))

/-- Counterexample for C7: a request with weight `2` (outside `[0, 1]`) is not
rejected with a 4xx error — it returns 200 with recommendations computed from
the out-of-range weight. -/
theorem weight_two_returns_200 :
    recEndpointStatus twoByTwoStore "u" 2 2 = 200 ∧
    get_hybrid_recommendations twoByTwoStore "u" 2 2 = ["m1", "m0"] :=
  ⟨by decide, by decide⟩

/-- C8 (amended): on the spec's end-to-end example (`items = ["1","2"]`,
features `{1:[1,0], 2:[1,0], 3:[0,1]}`, label 5.0), the liked items have
identical features, so the centred design matrix is zero and
`Ridge(alpha=1.0)` with its default intercept fits zero coefficients with
intercept 5.0; every item — in particular item "3" and any item with feature
`[1,0]` — is predicted exactly 5.0, not strictly lower. -/
theorem cold_start_identical_likes_flat :
    coldStartFit demoGenres (["1", "2"]) = ((0, 0), 5) ∧
    ridgePredict (coldStartFit demoGenres (["1", "2"])) (0, 1) = 5 ∧
    ridgePredict (coldStartFit demoGenres (["1", "2"])) (1, 0) = 5 ∧
    coldStartCore demoGenres (["1", "2"]) 5 = ["3"] :=
  ⟨by decide, by decide, by decide, by decide⟩

/-- Counterexample for C8: the fitted model does not predict feature `[0,1]`
(item "3") strictly lower than feature `[1,0]` — the two predictions are
equal. -/
theorem cold_start_item3_not_lower :
    ¬ (ridgePredict (coldStartFit demoGenres (["1", "2"])) (0, 1) <
        ridgePredict (coldStartFit demoGenres (["1", "2"])) (1, 0)) := by
  decide

/-- C9 (amended): no serving operation mutates the store — except
`get_cold_start_recommendations`, which, exactly when the genre table is
missing from the store and the lazy disk load succeeds, inserts that table
into the store; in every other case (genre table present, or lazy load
failing) the store is returned unchanged, and the hybrid, top-rated and
cold-start-sampling operations always return it unchanged. -/
theorem store_mutation_exactly_lazy_genre (s : ModelData) (d : Option (List GenreRow))
    (movies : List String) (pick : List String → ℤ → List String) (u : String)
    (n nn : ℤ) (w : ℚ) :
    (hybridOp s u n w).1 = s ∧
    (topRatedOp s u n).1 = s ∧
    (get_cold_start_movies pick s nn).1 = s ∧
    (get_cold_start_recommendations s d movies n).1 =
      (match s.genre, d with
       | some _, _ => s
       | none, some g => { s with genre := some g }
       | none, none => s) := by
  obtain ⟨c, k, r, g, t100⟩ := s
  refine ⟨rfl, rfl, ?_, ?_⟩
  · cases t100 <;> rfl
  · cases g <;> cases d <;> rfl

/-- Counterexample for C9: on a store whose genre table failed to load at
startup, one cold-start recommendation call returns a store different from
the one it was given (the lazily loaded genre table has been inserted). -/
theorem cold_start_mutates_store :
    (get_cold_start_recommendations emptyStore (some demoGenres) (["1"]) 5).1 ≠
      emptyStore := by
  decide

/-- C10 (amended): for a user with exactly one record, the `.loc` lookup
yields a single-row Series and `nlargest(n, 'rating')` raises, so the
retrieval-and-rank never returns that item as a length-1 result.  For the
current-ratings table the error escapes `get_user_top_rated_movies` and the
`/recommendations` endpoint answers 500.  For a prediction table, however,
`get_hybrid_recommendations` catches the error and returns an empty frame, so
no 500 is implied by that table alone (see the counterexample). -/
theorem single_record_behavior (s : ModelData) (rT cT : Table) (u : String)
    (n : ℤ) (w : ℚ) (hr : s.ratings = some rT) (hk : s.collab = some cT) :
    (userCount rT u = 1 →
      get_user_top_rated_movies s u n = .error ("keep must be either first, last or all") ∧
      recEndpointStatus s u n w = 500) ∧
    (userCount cT u = 1 →
      get_user_collab_recommendations s u n =
        .error ("keep must be either first, last or all") ∧
      get_hybrid_recommendations s u n w = []) := by
  constructor
  · intro h1
    unfold userCount at h1
    rcases List.length_eq_one.mp h1 with ⟨r, hrr⟩
    have htop : get_user_top_rated_movies s u n =
        .error ("keep must be either first, last or all") := by
      unfold get_user_top_rated_movies
      rw [hr]
      exact lookupAndRank_of_one rT u r hrr
    refine ⟨htop, ?_⟩
    simp [recEndpointStatus, recInner, htop]
  · intro h1
    unfold userCount at h1
    rcases List.length_eq_one.mp h1 with ⟨r, hrr⟩
    have hcol : get_user_collab_recommendations s u n =
        .error ("keep must be either first, last or all") := by
      unfold get_user_collab_recommendations
      rw [hk]
      exact lookupAndRank_of_one cT u r hrr
    refine ⟨hcol, ?_⟩
    unfold get_hybrid_recommendations hybridInner
    rcases hcon : get_user_content_recommendations s u n with e | c
    · simp only [hcon]
      rfl
    · simp only [hcon, hcol]
      rfl

/-- Witness for C10 (amended): a user with exactly one rating record and
exactly one collaborative record trips both failure modes. -/
theorem single_record_behavior_inst :
    (get_user_top_rated_movies singleEverywhereStore "u" 5 =
        .error ("keep must be either first, last or all") ∧
      recEndpointStatus singleEverywhereStore "u" 5 (1 / 2) = 500) ∧
    (get_user_collab_recommendations singleEverywhereStore "u" 5 =
        .error ("keep must be either first, last or all") ∧
      get_hybrid_recommendations singleEverywhereStore "u" 5 (1 / 2) = []) :=
  ⟨(single_record_behavior singleEverywhereStore ([⟨"u", "r1", 5⟩]) ([⟨"u", "m1", 4⟩])
      "u" 5 (1 / 2) rfl rfl).1 (by decide),
   (single_record_behavior singleEverywhereStore ([⟨"u", "r1", 5⟩]) ([⟨"u", "m1", 4⟩])
      "u" 5 (1 / 2) rfl rfl).2 (by decide)⟩

/-- Counterexample for C10: a user with exactly one collaborative prediction
record but two current-ratings records gets a 200 response — the nlargest
error inside the hybrid path is swallowed, so the endpoint does not surface
500 for the prediction-table case. -/
theorem single_record_pred_table_200 :
    userCount ([⟨"u", "m1", 4⟩]) "u" = 1 ∧
    recEndpointStatus singleCollabStore "u" 5 (1 / 2) = 200 :=
  ⟨by decide, by decide⟩

end MovieRec
